import Mathlib

/-!
Shallow embedding of the clinicalNLP deterministic backend's
criteria-matching and scoring pipeline
(`clinical_extractor.py`, `criteria_evaluator.py`, `admission_scorer.py`,
`alignment_engine.py`, `mcg_criteria.py`), together with theorems settling
the specification claims about it.

Text is modelled as `String` / `List Char`.  Python regular-expression
searches are embedded as bespoke left-to-right scanners that reproduce the
exact patterns used by the source (each scanner is documented with the
pattern it implements).  Python `float` lab values are modelled as `ℚ`:
every lab value the extractor produces is parsed from a short decimal
literal, for which rational and IEEE-754 comparisons against the integral
thresholds used by the evaluator coincide.  Python exceptions are modelled
with `Except String`.
-/

namespace ClinicalNLP

/-! ## Python text primitives -/

/-- Python `\s` (ASCII part; the notes here are ASCII). -/
def pyIsSpace (c : Char) : Bool :=
  c = ' ' ∨ c = '\t' ∨ c = '\n' ∨ c = '\r' ∨ c = '\x0b' ∨ c = '\x0c'

/-- Python regex `\d`. -/
def isDigitChar (c : Char) : Bool := '0' ≤ c ∧ c ≤ '9'

/-- Python regex `\w` = `[a-zA-Z0-9_]`. -/
def isWordChar (c : Char) : Bool :=
  isDigitChar c ∨ ('a' ≤ c ∧ c ≤ 'z') ∨ ('A' ≤ c ∧ c ≤ 'Z') ∨ c = '_'

/-- ASCII lower-casing, as `str.lower()` does on the ASCII notes. -/
def lowerL (l : List Char) : List Char := l.map Char.toLower

def lowerStr (s : String) : String := String.mk (lowerL s.data)

/-- Python `str.strip()`. -/
def stripL (l : List Char) : List Char :=
  ((l.dropWhile pyIsSpace).reverse.dropWhile pyIsSpace).reverse

def stripStr (s : String) : String := String.mk (stripL s.data)

/-- Python slicing `s[:n]`. -/
def pyTake (n : Nat) (s : String) : String := String.mk (s.data.take n)

/-- Python `or` on strings (here `""` and `None` both behave as falsy). -/
def pyOr (a b : String) : String := if a = "" then b else a

/-- Python substring test `needle in hay` (empty needle matches). -/
def containsSub (hay needle : List Char) : Bool :=
  match hay with
  | [] => needle = []
  | _ :: t => needle.isPrefixOf hay || containsSub t needle

def containsStr (hay needle : String) : Bool := containsSub hay.data needle.data

/-- Source `str.join` with a separator. -/
def joinSep (sep : String) : List String → String
  | [] => ""
  | [s] => s
  | s :: rest => s ++ sep ++ joinSep sep rest

/-- Python `re.findall(r"\b\w+\b", t)`: the maximal word-character runs. -/
def wordTokens : List Char → List (List Char)
  | [] => []
  | c :: t =>
    if isWordChar c then
      match wordTokens t with
      | [] => [[c]]
      | tok :: rest =>
        match t with
        | [] => [[c]]
        | c2 :: _ => if isWordChar c2 then (c :: tok) :: rest else [c] :: (tok :: rest)
    else wordTokens t

/-- Maximal runs of characters satisfying `p` (used for `re.findall` of a
character class such as `[a-zA-Z0-9\%\-]+`). -/
def classTokens (p : Char → Bool) : List Char → List (List Char)
  | [] => []
  | c :: t =>
    if p c then
      match classTokens p t with
      | [] => [[c]]
      | tok :: rest =>
        match t with
        | [] => [[c]]
        | c2 :: _ => if p c2 then (c :: tok) :: rest else [c] :: (tok :: rest)
    else classTokens p t

/-- Digits of a captured group as a number. -/
def digitsToNat (l : List Char) : Nat :=
  l.foldl (fun acc c => acc * 10 + (c.toNat - '0'.toNat)) 0

/-- Source `re.search` position scan: try the position matcher `f` (which receives
the previous character, for word-boundary tests, and the current suffix) at
every position left to right and return the first success. -/
def scanFirst (f : Option Char → List Char → Option α) :
    Option Char → List Char → Option α
  | prev, [] => f prev []
  | prev, c :: t =>
    match f prev (c :: t) with
    | some v => some v
    | none => scanFirst f (some c) t

/-- Word boundary `\b` between the previous character and the current one
(the current position is known to start with a word character). -/
def atBoundary (prev : Option Char) : Bool :=
  match prev with
  | none => true
  | some c => ¬ isWordChar c

/-- First alternative that succeeds (regex alternation / backtracking). -/
def firstSome : List (Option α) → Option α
  | [] => none
  | some v :: _ => some v
  | none :: rest => firstSome rest

def dropWs (l : List Char) : List Char := l.dropWhile pyIsSpace

def spanDigits (l : List Char) : List Char × List Char :=
  (l.takeWhile isDigitChar, l.dropWhile isDigitChar)

/-! ## The extractor's regex searches (`clinical_extractor.py`) -/

/-- Position matcher for `\b(\d{2,3})[- ]?year[- ]?old\b`
(`extract_clinical_data`, age).  Greedy `\d{2,3}` with backtracking
(3 digits first, then 2), greedy `[- ]?` (consume first, then skip). -/
def ageAt (prev : Option Char) (s : List Char) : Option Nat :=
  let (ds, rest) := spanDigits s
  if atBoundary prev ∧ 2 ≤ ds.length then
    let tryK : Nat → Option Nat := fun k =>
      if k ≤ ds.length then
        let tail := ds.drop k ++ rest
        let trySep : List Char → List (List Char) := fun l =>
          match l with
          | c :: t => if c = '-' ∨ c = ' ' then [t, l] else [l]
          | [] => [l]
        firstSome <| (trySep tail).map fun t1 =>
          if ("year".data).isPrefixOf t1 then
            firstSome <| (trySep (t1.drop 4)).map fun t2 =>
              if ("old".data).isPrefixOf t2 then
                let t3 := t2.drop 3
                match t3 with
                | [] => some (digitsToNat (ds.take k))
                | c :: _ => if isWordChar c then none else some (digitsToNat (ds.take k))
              else none
          else none
      else none
    firstSome [tryK (min 3 ds.length), tryK 2]
  else none

/-- Position matcher for `x\s*(\d+)\s*UNIT` (`extract_clinical_data`,
symptom duration; `UNIT` is `"week"` or `"day"`).  `\d+` is greedy; no
backtracking is possible since `UNIT` starts with a non-digit non-space. -/
def xNumUnitAt (unit : List Char) (_prev : Option Char) (s : List Char) : Option Nat :=
  match s with
  | 'x' :: t =>
    let (ds, rest) := spanDigits (dropWs t)
    if ds ≠ [] ∧ unit.isPrefixOf (dropWs rest) then some (digitsToNat ds) else none
  | _ => none

/-- Position matcher for `(\d{2,3}/\d{2,3})` (`extract_clinical_data`,
blood pressure); returns the whole matched text, as the source stores it. -/
def bpAt (_prev : Option Char) (s : List Char) : Option String :=
  let (ds, rest) := spanDigits s
  if 2 ≤ ds.length then
    let tryK : Nat → Option String := fun k =>
      if k ≤ ds.length then
        match ds.drop k ++ rest with
        | '/' :: u =>
          let (ds2, _) := spanDigits u
          if 2 ≤ ds2.length then
            some (String.mk (ds.take k ++ '/' :: ds2.take (min 3 ds2.length)))
          else none
        | _ => none
      else none
    firstSome [tryK (min 3 ds.length), tryK 2]
  else none

/-- Position matcher for `heart rate\s*(\d{2,3})` (`extract_clinical_data`). -/
def hrAt (_prev : Option Char) (s : List Char) : Option Nat :=
  if ("heart rate".data).isPrefixOf s then
    let (ds, _) := spanDigits (dropWs (s.drop 10))
    if 2 ≤ ds.length then some (digitsToNat (ds.take (min 3 ds.length))) else none
  else none

/-- Position matcher for `\b(?:respiratory rate|rr)\s*(\d{2})`
(`extract_clinical_data`); the alternation tries the long literal first. -/
def rrAt (prev : Option Char) (s : List Char) : Option Nat :=
  if atBoundary prev then
    let tryLit : List Char → Option Nat := fun lit =>
      if lit.isPrefixOf s then
        let (ds, _) := spanDigits (dropWs (s.drop lit.length))
        if 2 ≤ ds.length then some (digitsToNat (ds.take 2)) else none
      else none
    firstSome [tryLit "respiratory rate".data, tryLit "rr".data]
  else none

/-- Position matcher for one `\b(\d{2})\s*%` match (`extract_clinical_data`,
the respiratory-rate percent scan); returns the value and the remainder
after the `%` for the `findall` continuation. -/
def rrPctAt (prev : Option Char) (s : List Char) : Option (Nat × List Char) :=
  let (ds, rest) := spanDigits s
  if atBoundary prev ∧ 2 ≤ ds.length then
    match dropWs (ds.drop 2 ++ rest) with
    | '%' :: r2 => some (digitsToNat (ds.take 2), r2)
    | _ => none
  else none

/-- Position matcher for one `(\d{2,3})\s*%` match (`extract_clinical_data`,
the SpO2 percent scan).  Greedy `\d{2,3}` with backtracking. -/
def spo2PctAt (_prev : Option Char) (s : List Char) : Option (Nat × List Char) :=
  let (ds, rest) := spanDigits s
  if 2 ≤ ds.length then
    let tryK : Nat → Option (Nat × List Char) := fun k =>
      if k ≤ ds.length then
        match dropWs (ds.drop k ++ rest) with
        | '%' :: r2 => some (digitsToNat (ds.take k), r2)
        | _ => none
      else none
    firstSome [tryK (min 3 ds.length), tryK 2]
  else none

/-- Source `re.findall` driver for the two percent patterns: scan left to right,
emitting each non-overlapping match and resuming after it.  Both patterns
end by consuming a `'%'`, so the previous character after a match is `'%'`.
The fuel starts at `s.length + 1`, which bounds the number of steps. -/
def findAllPct (f : Option Char → List Char → Option (Nat × List Char)) :
    Nat → Option Char → List Char → List Nat
  | 0, _, _ => []
  | _ + 1, prev, [] => (f prev []).map (·.1) |>.toList
  | fuel + 1, prev, c :: t =>
    match f prev (c :: t) with
    | some (v, rest) => v :: findAllPct f fuel (some '%') rest
    | none => findAllPct f fuel (some c) t

/-! Number matchers for the lab patterns (`extract_clinical_data`, `patterns`
dict).  Each matches at the current position and yields the captured value
as a rational. -/

/-- Decimal value `IP . FP` as a rational (`mkRat` keeps the definition
kernel-computable; the value is `IP + FP / 10 ^ |FP|`). -/
def decToRat (ip fp : List Char) : ℚ :=
  mkRat (digitsToNat ip * 10 ^ fp.length + digitsToNat fp) (10 ^ fp.length)

/-- Pattern `\d{1,3}` (bun, gfr, ast, alt). -/
def numIntUpTo3 (s : List Char) : Option ℚ :=
  let (ds, _) := spanDigits s
  if ds ≠ [] then some (digitsToNat (ds.take (min 3 ds.length)) : ℚ) else none

/-- Pattern `\d{2,3}` (sodium). -/
def numInt2to3 (s : List Char) : Option ℚ :=
  let (ds, _) := spanDigits s
  if 2 ≤ ds.length then some (digitsToNat (ds.take (min 3 ds.length)) : ℚ) else none

/-- Pattern `\d\.\d+` (inr, potassium, calcium, lactate). -/
def numDec1 (s : List Char) : Option ℚ :=
  match s with
  | d :: '.' :: rest =>
    if isDigitChar d then
      let (fs, _) := spanDigits rest
      if fs ≠ [] then some (decToRat [d] fs) else none
    else none
  | _ => none

/-- Pattern `\d{1,3}\.\d+` (creatinine).  Greedy `\d{1,3}` with backtracking. -/
def numDec13 (s : List Char) : Option ℚ :=
  let (ds, rest) := spanDigits s
  if ds ≠ [] then
    let tryK : Nat → Option ℚ := fun k =>
      if 1 ≤ k ∧ k ≤ ds.length then
        match ds.drop k ++ rest with
        | '.' :: u =>
          let (fs, _) := spanDigits u
          if fs ≠ [] then some (decToRat (ds.take k) fs) else none
        | _ => none
      else none
    firstSome [tryK (min 3 ds.length), tryK 2, tryK 1]
  else none

/-- Pattern `\d{1,3}\.\d+|\d{1,3}` (wbc): the decimal alternative first, then the
plain integer one. -/
def numDecOrInt3 (s : List Char) : Option ℚ :=
  firstSome [numDec13 s, numIntUpTo3 s]

/-- Source `re.search(r"\bLABEL.*?(NUM)", text)`: the lazy gap means the captured
value comes from the first position at or after the first word-boundary
occurrence of the label where the number pattern matches (if the first
label occurrence has no number after it, no later one does either, so the
whole search fails). -/
def searchAfterLabel (label : List Char) (num : List Char → Option ℚ)
    (t : List Char) : Option ℚ :=
  match scanFirst
      (fun prev s =>
        if atBoundary prev ∧ label.isPrefixOf s then some (s.drop label.length)
        else none) none t with
  | none => none
  | some rest => scanFirst (fun _ s => num s) none rest

/-- Source `_parse_bp_systolic`: `re.match(r"(\d{2,3})\s*/\s*(\d{2,3})", bp)` is
anchored at the start of the stored blood-pressure string. -/
def parseBpSystolic (bp : String) : Option Int :=
  let (ds, rest) := spanDigits bp.data
  if 2 ≤ ds.length then
    let tryK : Nat → Option Int := fun k =>
      if k ≤ ds.length then
        match dropWs (ds.drop k ++ rest) with
        | '/' :: u =>
          let (ds2, _) := spanDigits (dropWs u)
          if 2 ≤ ds2.length then some (digitsToNat (ds.take k) : Int) else none
        | _ => none
      else none
    firstSome [tryK (min 3 ds.length), tryK 2]
  else none

/-! ## Text normalization (`_normalize_text`) -/

/-- Python `str.replace("\r\n", " ")` (left-to-right, non-overlapping). -/
def replaceCRLF : List Char → List Char
  | '\r' :: '\n' :: t => ' ' :: replaceCRLF t
  | c :: t => c :: replaceCRLF t
  | [] => []

/-- Python `str.replace("\n", " ")`. -/
def replaceLF (l : List Char) : List Char :=
  l.map fun c => if c = '\n' then ' ' else c

/-- Source `re.sub(r"\s+", " ", txt)`: every maximal whitespace run becomes one
space.  The flag records whether we are inside a run already emitted. -/
def collapseWsAux : Bool → List Char → List Char
  | _, [] => []
  | inRun, c :: t =>
    if pyIsSpace c then
      if inRun then collapseWsAux true t else ' ' :: collapseWsAux true t
    else c :: collapseWsAux false t

def collapseWs (l : List Char) : List Char := collapseWsAux false l

/-- Source `_normalize_text`: collapse CR/LF and whitespace runs, then strip. -/
def normalizeText (notes : String) : String :=
  if notes = "" then ""
  else String.mk (stripL (collapseWs (replaceLF (replaceCRLF notes.data))))

/-! ## Data model (`extract_clinical_data`'s returned record) -/

structure Vitals where
  bp : Option String
  hr : Option Int
  rr : Option Int
deriving DecidableEq

/-- The flat record returned by `extract_clinical_data`.  `outpatientFailure`
is not a key of the source's returned dict; the evaluator reads it with
`_get_attr(..., False)`, which the always-false field models. -/
structure ClinicalData where
  raw_text : String
  age : Option Int
  gender : Option String
  symptoms : List String
  symptom_duration_days : Option Int
  vitals : Vitals
  tachypnea : Bool
  spo2_values : List Int
  lowest_spo2 : Option Int
  hypoxemia : Bool
  oxygenRequirement : Bool
  labs : List (String × ℚ)
  imagingFindings : List String
  bilateral_pneumonia : Bool
  distress : Bool
  crackles : Bool
  dnr_dni : Bool
  assisted_living : Bool
  iv_antibiotics : Bool
  comorbidities : List String
  outpatientFailure : Bool
deriving DecidableEq

/-- The `patterns` dict of `extract_clinical_data`, in insertion order:
lab key, label literal (note `"lactate"` is keyed to `"lactic acid"`),
and the numeric capture pattern. -/
def labPatterns : List (String × List Char × (List Char → Option ℚ)) :=
  [("wbc", "wbc".data, numDecOrInt3),
   ("bun", "bun".data, numIntUpTo3),
   ("creatinine", "creatinine".data, numDec13),
   ("gfr", "gfr".data, numIntUpTo3),
   ("inr", "inr".data, numDec1),
   ("sodium", "sodium".data, numInt2to3),
   ("potassium", "potassium".data, numDec1),
   ("calcium", "calcium".data, numDec1),
   ("ast", "ast".data, numIntUpTo3),
   ("alt", "alt".data, numIntUpTo3),
   ("lactate", "lactic acid".data, numDec1)]

/-- Source `extract_clinical_data(notes)`. -/
def extract_clinical_data (notes : String) : ClinicalData :=
  let text := normalizeText notes
  let lower := lowerStr text
  let lo := lower.data
  let age : Option Int := (scanFirst ageAt none lo).map fun n => (n : Int)
  let gender : Option String :=
    if containsStr lower " female" then some "female"
    else if containsStr lower " male" then some "male"
    else none
  let symptoms :=
    (["cough", "shortness of breath", "fever", "chills", "chest pain"] :
      List String).filter fun t => containsStr lower t
  let durWeek := scanFirst (xNumUnitAt "week".data) none lo
  let durDay := scanFirst (xNumUnitAt "day".data) none lo
  -- sequential regexes: the week result is assigned first, then the day
  -- pattern overwrites it when it matches (last match wins)
  let duration : Option Int :=
    match durDay with
    | some n => some (n : Int)
    | none => durWeek.map fun n => (n : Int) * 7
  let bp : Option String := scanFirst bpAt none lo
  let hr : Option Int := (scanFirst hrAt none lo).map fun n => (n : Int)
  let rr : Option Int := (scanFirst rrAt none lo).map fun n => (n : Int)
  let rrVals := (findAllPct rrPctAt (lo.length + 1) none lo).filter
    fun v => 10 < v ∧ v < 40
  let tachypnea := rrVals.any fun v => 22 ≤ v
  let spo2Vals :=
    ((findAllPct spo2PctAt (lo.length + 1) none lo).filter
      fun v => 30 ≤ v ∧ v ≤ 100).map fun n => (n : Int)
  let lowestSpo2 : Option Int :=
    match spo2Vals with
    | [] => none
    | h :: t => some (t.foldl min h)
  let hypoxemia := match lowestSpo2 with | some v => v < 90 | none => false
  let oxygenReq := containsStr lower "l nasal cannula" ||
    containsStr lower "placed on" || containsStr lower "o2 supplement"
  let labs : List (String × ℚ) := labPatterns.filterMap
    fun kp => (searchAfterLabel kp.2.1 kp.2.2 lo).map fun v => (kp.1, v)
  let imaging := (["pneumonia", "infiltrate", "bilateral"] : List String).filter
    fun t => containsStr lower t
  { raw_text := text
    age := age
    gender := gender
    symptoms := symptoms
    symptom_duration_days := duration
    vitals := { bp := bp, hr := hr, rr := rr }
    tachypnea := tachypnea
    spo2_values := spo2Vals
    lowest_spo2 := lowestSpo2
    hypoxemia := hypoxemia
    oxygenRequirement := oxygenReq
    labs := labs
    imagingFindings := imaging
    bilateral_pneumonia := containsStr lower "bilateral" && containsStr lower "pneumonia"
    distress := containsStr lower "moderate distress" || containsStr lower "chronically ill"
    crackles := containsStr lower "crackles"
    dnr_dni := containsStr lower "dnr" || containsStr lower "dni"
    assisted_living := containsStr lower "assisted living"
    iv_antibiotics := (["vancomycin", "cefepime", "iv piggy", "iv push"] :
      List String).any fun t => containsStr lower t
    comorbidities := (["hypertension", "afib", "ckd", "aki", "dvt",
      "hypothyroidism"] : List String).filter fun t => containsStr lower t
    outpatientFailure := false }

/-! ## Criterion evaluation (`criteria_evaluator.py`) -/

/-- A canonical criterion as handed to the evaluator
(`_mcg_criteria_to_objs` builds objects with these four fields). -/
structure Criterion where
  id : String
  text : String
  category : String
  keywords : List String
deriving DecidableEq

/-- The `EvaluatedCriterion` record (`alignment_types.py`); the plain-dict
form produced by `_to_plain_dict` has the same seven fields. -/
structure EvaluatedCriterion where
  criterionId : String
  criterionText : String
  category : String
  status : String
  evidenceFound : String
  suggestedLanguage : String
  scoreContribution : Int
deriving DecidableEq

/-- Source `str(float)` for the lab values (all of which are short nonnegative
decimals): integral values render with a trailing `.0`. -/
def fracDigitsAux (a b : ℤ) : Nat → List Char
  | 0 => []
  | fuel + 1 =>
    if a = 0 then []
    else
      let d := a * 10 / b
      Char.ofNat ('0'.toNat + d.toNat) :: fracDigitsAux (a * 10 % b) b fuel

def ratFloatStr (q : ℚ) : String :=
  let w := q.num / (q.den : ℤ)
  let fs := fracDigitsAux (q.num % (q.den : ℤ)) (q.den : ℤ) 30
  toString w ++ "." ++ (if fs = [] then "0" else String.mk fs)

/-- Python `str` of an optional int (`None` prints as `"None"`). -/
def strOptInt : Option Int → String
  | some v => toString v
  | none => "None"

def optRatStr : Option ℚ → String
  | some q => ratFloatStr q
  | none => "None"

/-- Source `" ".join(f"{kk} {vv}" for kk, vv in vitals.items() if vv is not None)`
with the extractor's insertion order bp, hr, rr. -/
def vitalsJoin (v : Vitals) : String :=
  joinSep " "
    ((match v.bp with | some s => ["bp " ++ s] | none => []) ++
     (match v.hr with | some n => ["hr " ++ toString n] | none => []) ++
     (match v.rr with | some n => ["rr " ++ toString n] | none => []))

/-- Source `_build_search_text` (with the pipeline's empty `doctor_notes_fallback`):
raw text, stringified list/dict fields, and the names of true boolean
flags, newline-joined and lower-cased.  The keys `oxygen_methods` and
`outpatient_medications` are not present on the extractor's record and
contribute nothing. -/
def mkSearchText (cd : ClinicalData) : List Char :=
  let parts : List String :=
    [pyOr cd.raw_text "",
     joinSep " " cd.symptoms,
     joinSep " " cd.imagingFindings,
     joinSep " " (cd.labs.map fun kv => kv.1 ++ " " ++ ratFloatStr kv.2),
     vitalsJoin cd.vitals,
     joinSep " " cd.comorbidities,
     joinSep " " (cd.spo2_values.map toString)] ++
    (if cd.hypoxemia then ["hypoxemia"] else []) ++
    (if cd.oxygenRequirement then ["oxygenRequirement"] else []) ++
    (if cd.tachypnea then ["tachypnea"] else []) ++
    (if cd.bilateral_pneumonia then ["bilateral_pneumonia"] else []) ++
    (if cd.iv_antibiotics then ["iv_antibiotics"] else []) ++
    (if cd.dnr_dni then ["dnr_dni"] else []) ++
    (if cd.assisted_living then ["assisted_living"] else []) ++
    (if cd.crackles then ["crackles"] else []) ++
    (if cd.distress then ["distress"] else [])
  lowerL (joinSep "\n" (parts.filter (· ≠ ""))).data

/-- Source `_match_keywords`: substring match, then token match, then a
truncated-prefix (first 6 chars, min length 3) fallback.  The source
recomputes the token list inside the loop; the value is identical. -/
def matchKeywords (keywords : List String) (t : List Char) : List String :=
  if keywords = [] ∨ t = [] then []
  else
    let toks := wordTokens t
    keywords.filterMap fun kw =>
      if kw = "" then none
      else
        let k := lowerStr (stripStr kw)
        if k = "" then none
        else if containsSub t k.data then some kw
        else if toks.any (fun tok => containsSub tok k.data) then some kw
        else
          let short := k.data.take 6
          if 3 ≤ short.length ∧ containsSub t short then some kw
          else none

/-- Source `len(set(m.lower() for m in matched))`. -/
def distinctLowerCount (ms : List String) : Nat := ((ms.map lowerStr).dedup).length

/-- Status re-normalization at the end of `evaluate_criteria`. -/
def normalizeStatus (status : String) : String :=
  let ss := lowerStr (stripStr status)
  if ss = "met" ∨ ss = "yes" ∨ ss = "true" ∨ ss = "satisfied" then "Met"
  else if containsStr ss "part" ∨ ss = "partial" ∨ ss = "partially" ∨ ss = "partial match" then "Partial"
  else "Missing"

/-- The fixed score table of `evaluate_criteria`: Met→5, Partial→2, else 0. -/
def scoreOf (st : String) : Int :=
  if st = "Met" then 5 else if st = "Partial" then 2 else 0

/-- The precomputed per-call bindings of `evaluate_criteria` (search text,
lab shortcuts, flags, parsed vitals). -/
structure EvalEnv where
  searchText : List Char
  lowestSpo2 : Option Int
  oxygenReq : Bool
  hypox : Bool
  tachypnea : Bool
  bilateralPna : Bool
  ivAbx : Bool
  dnrDni : Bool
  assistedLiving : Bool
  crackles : Bool
  distress : Bool
  outpatientFail : Bool
  imaging : List String
  comorbs : List String
  wbcVal : Option ℚ
  bunVal : Option ℚ
  crVal : Option ℚ
  gfrVal : Option ℚ
  inrVal : Option ℚ
  systolicBp : Option Int
  hrVal : Option Int

def labGet (labs : List (String × ℚ)) (k : String) : Option ℚ :=
  (labs.find? fun kv => kv.1 = k).map (·.2)

/-- The evaluator's setup lines (everything before the criterion loop
except the fallible lowest-SpO2 resolution, which is separate). -/
def mkEnv (cd : ClinicalData) (ls : Option Int) : EvalEnv :=
  { searchText := mkSearchText cd
    lowestSpo2 := ls
    oxygenReq := cd.oxygenRequirement
    hypox := cd.hypoxemia
    tachypnea := cd.tachypnea
    bilateralPna := cd.bilateral_pneumonia
    ivAbx := cd.iv_antibiotics
    dnrDni := cd.dnr_dni
    assistedLiving := cd.assisted_living
    crackles := cd.crackles
    distress := cd.distress
    outpatientFail := cd.outpatientFailure
    imaging := cd.imagingFindings
    comorbs := cd.comorbidities
    wbcVal := labGet cd.labs "wbc"
    bunVal := labGet cd.labs "bun"
    crVal := labGet cd.labs "creatinine"
    gfrVal := labGet cd.labs "gfr"
    inrVal := labGet cd.labs "inr"
    systolicBp := match cd.vitals.bp with | some s => parseBpSystolic s | none => none
    hrVal := cd.vitals.hr }

def pulmonaryIndicators : List String :=
  ["oxygen", "o2 sat", "hypox", "desat", "saturation", "respiratory",
   "tachypnea", "crackles", "pneumonia", "infiltrate", "consolidation", "bilateral"]

/-- The status / evidence-fragment computation of the criterion loop of
`evaluate_criteria`: the keyword branch, then the category / text driven
rule chain. -/
def rawEval (env : EvalEnv) (catNorm textLower : String) (kws : List String) :
    String × List String :=
  if kws ≠ [] then
    let matched := matchKeywords kws env.searchText
    if matched ≠ [] then
      if 2 ≤ distinctLowerCount matched then ("Met", matched) else ("Partial", matched)
    else ("Missing", [])
  else
    if catNorm = "respiratory" ∨ catNorm = "pulmonary" ∨
        pulmonaryIndicators.any (fun k => containsStr textLower k) then
      if env.hypox || (match env.lowestSpo2 with | some v => decide (v < 90) | none => false) then
        ("Met", ["Lowest SpO2=" ++ strOptInt env.lowestSpo2])
      else if env.oxygenReq || env.tachypnea || env.crackles || env.bilateralPna ||
          (match env.lowestSpo2 with | some v => decide (90 ≤ v ∧ v < 94) | none => false) then
        ("Partial",
          (if env.oxygenReq then ["Supplemental oxygen documented"] else []) ++
          (if env.tachypnea then ["Tachypnea documented"] else []) ++
          (if env.crackles then ["Exam: crackles"] else []) ++
          (if env.bilateralPna then ["Bilateral pulmonary involvement"] else []))
      else ("Missing", [])
    else if catNorm = "imaging" ∨
        (["pneumonia", "x-ray", "cxr", "ct", "consolidation", "infiltrate"] :
          List String).any (fun k => containsStr textLower k) then
      if env.imaging ≠ [] then ("Met", ["Radiographic evidence documented"])
      else ("Missing", [])
    else if catNorm = "laboratory" ∨ catNorm = "labs" ∨ catNorm = "renal" ∨
        (["wbc", "white blood", "leukocyt", "lactate", "bun", "creatinine",
          "gfr", "inr"] : List String).any (fun k => containsStr textLower k) then
      let base : String × List String :=
        if containsStr textLower "bun" ∨ containsStr textLower "creatinine" ∨
            containsStr textLower "gfr" ∨ catNorm = "renal" then
          if (match env.bunVal with | some b => decide (40 < b) | none => false) then
            ("Met", ["BUN=" ++ optRatStr env.bunVal])
          else if (match env.crVal with | some c => decide (Rat.divInt 3 2 < c) | none => false) then
            ("Met", ["Creatinine=" ++ optRatStr env.crVal])
          else if (match env.gfrVal with | some g => decide (g < 60) | none => false) then
            ("Partial", ["GFR=" ++ optRatStr env.gfrVal])
          else ("Missing", [])
        else
          match env.wbcVal with
          | some w =>
            if 12 ≤ w then ("Met", ["WBC=" ++ ratFloatStr w])
            else if 10 ≤ w ∧ w < 12 then ("Partial", ["WBC=" ++ ratFloatStr w])
            else ("Missing", [])
          | none => ("Missing", [])
      match env.inrVal with
      | some i => if 2 < i then ("Met", base.2 ++ ["INR=" ++ ratFloatStr i]) else base
      | none => base
    else if catNorm = "outpatient" ∨ containsStr textLower "outpatient" ∨
        containsStr textLower "failed" then
      if env.outpatientFail then ("Met", ["Outpatient therapy failure documented"])
      else ("Missing", [])
    else if catNorm = "escalation" ∨ catNorm = "treatment" ∨
        (["iv", "intravenous", "vancomycin", "cefepime", "piperacillin",
          "zosyn", "broad-spectrum"] : List String).any (fun k => containsStr textLower k) then
      if env.ivAbx then ("Met", ["IV broad-spectrum antibiotics initiated"])
      else ("Missing", [])
    else if catNorm = "hemodynamic" ∨ catNorm = "cardiac" ∨
        (["blood pressure", "sbp", "hypotension", "tachycardia", "arrhythmia"] :
          List String).any (fun k => containsStr textLower k) then
      if (match env.systolicBp with | some v => decide (v < 90) | none => false) then
        ("Met", ["SBP=" ++ strOptInt env.systolicBp])
      else if (match env.hrVal with | some v => decide (120 < v) | none => false) then
        ("Partial", ["HR=" ++ strOptInt env.hrVal])
      else ("Missing", [])
    else if catNorm = "functional" ∨ catNorm = "disposition" ∨ catNorm = "social" ∨
        (["assisted living", "dnr", "dni", "homebound", "nursing"] :
          List String).any (fun k => containsStr textLower k) then
      if env.assistedLiving || env.dnrDni || env.distress then
        ("Partial",
          (if env.assistedLiving then ["Assisted living residency"] else []) ++
          (if env.dnrDni then ["DNR/DNI documented"] else []) ++
          (if env.distress then ["Clinically distressed / frail appearing"] else []))
      else ("Missing", [])
    else if catNorm = "comorbidity" ∨
        (["comorbid", "htn", "afib", "diabetes", "ckd", "dvt"] :
          List String).any (fun k => containsStr textLower k) then
      if env.comorbs ≠ [] then
        ("Partial", ["Comorbidities present: " ++ joinSep ", " env.comorbs])
      else ("Missing", [])
    else
      let toks := classTokens
        (fun c => isDigitChar c ∨ ('a' ≤ c ∧ c ≤ 'z') ∨ ('A' ≤ c ∧ c ≤ 'Z') ∨
          c = '%' ∨ c = '-') textLower.data
      let tokenMatches := toks.filter fun tk => tk ≠ [] ∧ containsSub env.searchText tk
      if tokenMatches ≠ [] then ("Partial", [joinSep " " (tokenMatches.map String.mk)])
      else ("Missing", [])

/-- One pass of the criterion loop of `evaluate_criteria` (the loop body is
total, so its per-criterion `except` fallback is unreachable). -/
def evalCriterion (env : EvalEnv) (crit : Criterion) : EvaluatedCriterion :=
  let cid := crit.id
  let ctext := pyOr crit.text ""
  let ccat := pyOr crit.category ""
  let ctextNorm := stripStr ctext
  let catNorm := lowerStr (stripStr ccat)
  let res := rawEval env catNorm (lowerStr ctextNorm) crit.keywords
  let stNorm := normalizeStatus res.1
  let score := scoreOf stNorm
  let evidence := if res.2 ≠ [] then joinSep " ; " (res.2.filter (· ≠ "")) else ""
  let suggested :=
    if stNorm = "Missing" then
      if ctextNorm ≠ "" then "Consider documenting: " ++ ctextNorm
      else "Consider documenting relevant clinical findings."
    else ""
  { criterionId := cid
    criterionText := ctext
    category := ccat
    status := stNorm
    evidenceFound := evidence
    suggestedLanguage := suggested
    scoreContribution := score }

/-- The evaluator's line
`lowest_spo2 = _get_attr(cd, "lowest_spo2", None) or _get_attr(cd, "spo2_values", [None])[0]`:
when `lowest_spo2` is falsy (None or 0) the right operand indexes
`spo2_values`, raising `IndexError` when that list is present but empty. -/
def resolveLowestSpo2 (cd : ClinicalData) : Except String (Option Int) :=
  if (match cd.lowest_spo2 with | some v => decide (v ≠ 0) | none => false) then
    .ok cd.lowest_spo2
  else
    match cd.spo2_values with
    | [] => .error "IndexError: list index out of range"
    | v :: _ => .ok (some v)

/-- Source `evaluate_criteria(criteria_list, clinical_data)`.  The setup can raise
(see `resolveLowestSpo2`); once past it, the loop evaluates every criterion
in order. -/
def evaluate_criteria (criteria : List Criterion) (cd : ClinicalData) :
    Except String (List EvaluatedCriterion) :=
  match resolveLowestSpo2 cd with
  | .error e => .error e
  | .ok ls => .ok (criteria.map (evalCriterion (mkEnv cd ls)))

/-! ## Score aggregation (`admission_scorer.py`) -/

/-- Python 3 `round()` (round half to even) on an exact rational.  The
source rounds `total/max*100`, a ratio of small integers evaluated in
floating point; for the tie-relevant magnitudes here the rational and
float roundings agree.  The fractional part `r = q - ⌊q⌋ = rnum/q.den` is
compared with `1/2` through the integer inequality `2*rnum ≟ q.den`, which
keeps the definition kernel-computable. -/
def pyRound (q : ℚ) : ℤ :=
  let f := Rat.floor q
  let rnum := q.num - f * (q.den : ℤ)
  if 2 * rnum < (q.den : ℤ) then f
  else if (q.den : ℤ) < 2 * rnum then f + 1
  else if f % 2 = 0 then f else f + 1

structure Decision where
  totalScore : Int
  maxPossibleScore : Int
  percentage : Int
  admissionRecommended : Bool
deriving DecidableEq

/-- Source `compute_admission_decision(evaluated)`. -/
def compute_admission_decision (evaluated : List EvaluatedCriterion) : Decision :=
  let total := (evaluated.map (·.scoreContribution)).sum
  let maxP := (evaluated.length : Int) * 5
  { totalScore := total
    maxPossibleScore := maxP
    -- `round((total / max) * 100)`: the argument is the exact rational
    -- `total*100 / max` (`Rat.divInt`, which kernel-reduces)
    percentage := if 0 < maxP then pyRound (Rat.divInt (total * 100) maxP) else 0
    admissionRecommended := evaluated.any fun c => c.status = "Met" }

/-! ## The canonical criteria table (`mcg_criteria.py`) -/

structure McgEntry where
  order : Nat
  id : String
  text : String
  category : String
  keywords : List String
  action : String
deriving DecidableEq

def MCG_CRITERIA : List McgEntry :=
  [{ order := 1, id := "MCG-R1",
     text := "Hypoxemia (SpO2 < 90%) or need for supplemental oxygen",
     category := "Respiratory",
     keywords := ["hypoxemia", "spo2", "o2 sat", "oxygen saturation",
       "supplemental oxygen", "nasal cannula", "desaturat"],
     action := "Document lowest SpO2 value and oxygen support requirement." },
   { order := 2, id := "MCG-H1",
     text := "Hemodynamic instability (systolic BP < 90 or need for vasopressors)",
     category := "Hemodynamic",
     keywords := ["sbp < 90", "hypotension", "vasopressor"],
     action := "Document persistent hypotension or vasopressor requirement." },
   { order := 3, id := "MCG-N1",
     text := "Altered mental status that is severe or persistent",
     category := "Neurologic",
     keywords := ["altered mental", "confusion", "lethargy", "somnolent",
       "disoriented", "coma"],
     action := "Document severity and persistence of altered mental status." },
   { order := 4, id := "MCG-D1",
     text := "Dehydration that is severe or persistent",
     category := "Other",
     keywords := ["dehydration", "orthostasis", "dry mucosa"],
     action := "Document severity of dehydration and need for IV fluids." },
   { order := 5, id := "MCG-R2",
     text := "Ventilatory assistance needed (eg mechanical ventilation, noninvasive ventilation)",
     category := "Respiratory",
     keywords := ["intubation", "mechanical ventilation", "bipap", "cpap", "ventilator"],
     action := "Document requirement for mechanical or noninvasive ventilatory support." },
   { order := 6, id := "MCG-B1",
     text := "Bacteremia (if blood cultures performed)",
     category := "Laboratory",
     keywords := ["positive blood culture", "bacteremia"],
     action := "Document positive blood culture if obtained." },
   { order := 7, id := "MCG-R3",
     text := "Moderate-risk-category or high-risk-category patient (PSI IV/V or CURB-65 ≥ 3)",
     category := "RiskScore",
     keywords := ["psi iv", "psi v", "curb-65", "curb 65"],
     action := "Document PSI class IV/V or CURB-65 score ≥ 3." },
   { order := 8, id := "MCG-R4",
     text := "Respiratory finding (eg tachypnea) that persists despite observation care",
     category := "Respiratory",
     keywords := ["tachypnea", "respiratory rate", "respiratory distress"],
     action := "Document respiratory findings persisting despite observation." },
   { order := 9, id := "MCG-C1",
     text := "Complicated pleural effusions (eg empyema, loculated)",
     category := "Imaging",
     keywords := ["pleural effusion", "empyema", "loculated"],
     action := "Document complicated pleural effusion findings." },
   { order := 10, id := "MCG-R6",
     text := "Presence of risk factor for poor outcome (eg gross hemoptysis, cavitary infiltrate, neuromuscular weakness, cystic fibrosis)",
     category := "RiskFactor",
     keywords := ["hemoptysis", "cavitary infiltrate", "neuromuscular weakness",
       "cystic fibrosis"],
     action := "Document risk factors associated with poor outcome." }]

/-- Source `_mcg_criteria_to_objs`: id/text/category/keywords objects (the
`order` and `action` fields are dropped). -/
def mcgObjs : List Criterion :=
  MCG_CRITERIA.map fun c =>
    { id := c.id, text := c.text, category := c.category, keywords := c.keywords }

/-! ## The alignment coordinator (`alignment_engine.py`)

A Python `dict` is modelled as an association list with unique keys:
updating an existing key replaces its value in place (preserving its
insertion position), inserting a new key appends, and iteration follows
the list order — exactly CPython's insertion-order semantics. -/

def dictInsert (k : String) (v : α) : List (String × α) → List (String × α)
  | [] => [(k, v)]
  | kv :: rest => if kv.1 = k then (k, v) :: rest else kv :: dictInsert k v rest

def dictLookup (d : List (String × α)) (k : String) : Option α :=
  (d.find? fun kv => kv.1 = k).map (·.2)

/-- Source `_to_plain_dict` applied to an `EvaluatedCriterion` dataclass:
`dataclasses.asdict` succeeds, then the falsy fields are defaulted.
(`category` is mapped to `None` when falsy; `None` and `""` are both
modelled by `""`.) -/
def toPlainDict (e : EvaluatedCriterion) : EvaluatedCriterion :=
  { criterionId := e.criterionId
    criterionText := pyOr e.criterionText ""
    category := e.category
    status := pyOr e.status "Missing"
    evidenceFound := pyOr e.evidenceFound ""
    suggestedLanguage := pyOr e.suggestedLanguage ""
    scoreContribution := e.scoreContribution }

/-- The canonical-criterion dicts of step 6 of `run_alignment_engine`
(`criteria_json`: id, text, category only). -/
structure CritJson where
  id : String
  text : String
  category : String
deriving DecidableEq

/-- Source `by_id` of `_match_evaluated_to_criteria`: keyed by `str(criterionId)`
for the entries with truthy id; later entries overwrite earlier ones. -/
def buildById (eds : List EvaluatedCriterion) : List (String × EvaluatedCriterion) :=
  eds.foldl (fun d ed => if ed.criterionId ≠ "" then dictInsert ed.criterionId ed d else d) []

/-- Source `by_textstart`: keyed by the first 40 characters of the stripped
criterion text, for entries with truthy text. -/
def buildByText (eds : List EvaluatedCriterion) : List (String × EvaluatedCriterion) :=
  eds.foldl
    (fun d ed =>
      let ct := pyOr ed.criterionText ""
      if ct ≠ "" then dictInsert (pyTake 40 (stripStr ct)) ed d else d) []

/-- The inner fallback loop of `_match_evaluated_to_criteria`: the first
`by_textstart` item whose key is truthy and a substring of its own entry's
criterion text. -/
def textstartLoop (byText : List (String × EvaluatedCriterion)) :
    Option EvaluatedCriterion :=
  (byText.find? fun kv => kv.1 ≠ "" ∧ containsStr (pyOr kv.2.criterionText "") kv.1).map (·.2)

/-- The per-canonical-criterion body of `_match_evaluated_to_criteria`:
find an evaluated entry by id, else by 40-char text prefix, else by the
fallback loop; normalize it, or insert the Missing/0 default.  (Matching on
the id lookup first is equivalent to the source's `if cid and str(cid) in
by_id` guard: when `cid` is falsy the text fallback is used either way.) -/
def matchStep (byId byText : List (String × EvaluatedCriterion))
    (acc : List (String × EvaluatedCriterion)) (c : CritJson) :
    List (String × EvaluatedCriterion) :=
  let cid := c.id
  let ctext := pyOr c.text ""
  let textFind : Option EvaluatedCriterion :=
    match dictLookup byText (pyTake 40 ctext) with
    | some v => some v
    | none => textstartLoop byText
  let found : Option EvaluatedCriterion :=
    match dictLookup byId cid with
    | some ed => if cid ≠ "" then some ed else textFind
    | none => textFind
  match found with
  | some f =>
    dictInsert cid
      { criterionId := pyOr f.criterionId cid
        criterionText := pyOr f.criterionText ctext
        category := pyOr f.category c.category
        status := pyOr f.status "Missing"
        evidenceFound := pyOr f.evidenceFound ""
        suggestedLanguage := pyOr f.suggestedLanguage ""
        scoreContribution := f.scoreContribution } acc
  | none =>
    dictInsert cid
      { criterionId := cid
        criterionText := ctext
        category := c.category
        status := "Missing"
        evidenceFound := ""
        suggestedLanguage := ""
        scoreContribution := 0 } acc

/-- Source `_match_evaluated_to_criteria(evaluated_dicts, canonical_criteria)`. -/
def matchEvaluatedToCriteria (eds : List EvaluatedCriterion)
    (canonical : List CritJson) : List (String × EvaluatedCriterion) :=
  canonical.foldl (matchStep (buildById eds) (buildByText eds)) []

/-- Source `_normalize_status_for_filter`: empty for falsy input, else
stripped + lower-cased. -/
def statusForFilter (s : String) : String :=
  if s = "" then "" else lowerStr (stripStr s)

/-- Step 11's status re-normalization of an entry's status string
(`str(ed.get("status", "") or "")` through `_normalize_status_for_filter`
and the met/partial synonym lists). -/
def renormForFilter (s : String) : String :=
  let st := statusForFilter (pyOr s "")
  if st = "met" ∨ st = "yes" ∨ st = "true" ∨ st = "satisfied" then "Met"
  else if st = "partial" ∨ st = "partially met" ∨ st = "partially" ∨
      st = "partial match" then "Partial"
  else "Missing"

/-- One entry of step 11's `missingCriteria` list (the spec's
`evaluatedCriteria` output shape): criterionId, guideline, action,
normalized status, scoreContribution. -/
structure MissingEntry where
  criterionId : String
  guideline : String
  action : String
  status : String
  scoreContribution : Int
deriving DecidableEq

/-- Step 11's per-criterion entry: look the criterion up in `eval_map`
(falling back to a Missing/0 stub), re-normalize the status through
`_normalize_status_for_filter` and the met/partial synonym lists, and take
the short action text (`_short_action_for_criterion` on an id/text/category
dict has no `action` key, so it truncates the text to 120 characters). -/
def mkMissingEntry (em : List (String × EvaluatedCriterion)) (c : CritJson) :
    MissingEntry :=
  let cid := c.id
  let ed :=
    (dictLookup em cid).getD
      { criterionId := cid, criterionText := c.text, category := c.category,
        status := "Missing", evidenceFound := "", suggestedLanguage := "",
        scoreContribution := 0 }
  { criterionId := cid
    guideline := c.text
    action := pyTake 120 c.text
    status := renormForFilter ed.status
    scoreContribution := ed.scoreContribution }

/-- The claim-relevant payload of `run_alignment_engine` (the narrative
fields and the raw-section debug previews, which the spec places out of
scope, are omitted; `decision` is the payload's `_rawDecision`). -/
structure PipelineResult where
  extractedCriteria : List CritJson
  missingCriteria : List MissingEntry
  overallScore : Int
  admissionRecommended : Bool
  decision : Decision
deriving DecidableEq

/-- Step 6's `criteria_json`: the canonical list as id/text/category dicts
(a constant — `MCG_CRITERIA` is the read-only table). -/
def criteriaJson : List CritJson :=
  mcgObjs.map fun c => { id := c.id, text := c.text, category := c.category }

/-- Step 4's `except` handler: an evaluator exception degrades to the
empty evaluated list. -/
def okList (r : Except String (List EvaluatedCriterion)) : List EvaluatedCriterion :=
  match r with
  | .ok l => l
  | .error _ => []

/-- The statuses of an evaluator result (empty on an exception). -/
def pipelineStatuses (r : Except String (List EvaluatedCriterion)) : List String :=
  (okList r).map (·.status)

/-- Steps 3-5: extract clinical data, evaluate the canonical criteria
(`except: evaluated = []` on an evaluator exception), convert to plain
dicts. -/
def evaluatedDictsOf (notes : String) : List EvaluatedCriterion :=
  (okList (evaluate_criteria mcgObjs (extract_clinical_data notes))).map toPlainDict

/-- Step 7: `eval_map`. -/
def evalMapOf (notes : String) : List (String × EvaluatedCriterion) :=
  matchEvaluatedToCriteria (evaluatedDictsOf notes) criteriaJson

/-- Step 8: `aligned_evaluated_dicts`, one entry per canonical criterion in
canonical order. -/
def alignedOf (notes : String) : List EvaluatedCriterion :=
  criteriaJson.map fun c =>
    (dictLookup (evalMapOf notes) c.id).getD
      { criterionId := c.id, criterionText := c.text, category := c.category,
        status := "Missing", evidenceFound := "", suggestedLanguage := "",
        scoreContribution := 0 }

/-- Step 9: the admission decision. -/
def decisionOf (notes : String) : Decision :=
  compute_admission_decision (alignedOf notes)

/-- Step 11: the stable `missingCriteria` list. -/
def missingOf (notes : String) : List MissingEntry :=
  criteriaJson.map (mkMissingEntry (evalMapOf notes))

/-- Source `run_alignment_engine(doctor_notes, pdf_text)`.  `pdf_text` feeds only
the PDF section parser, whose output reaches just the debug previews and
the disabled `extract_criteria` fallback (importing the canonical
`MCG_CRITERIA` always succeeds), so it does not influence the payload. -/
def run_alignment_engine (doctor_notes : String) (_pdf_text : String) :
    PipelineResult :=
  { extractedCriteria := criteriaJson
    missingCriteria := missingOf doctor_notes
    overallScore := (decisionOf doctor_notes).percentage
    admissionRecommended := (decisionOf doctor_notes).admissionRecommended
    decision := decisionOf doctor_notes }

/-! ## Concrete scenario inputs used by the theorems below -/

/-- A concrete reconciled list (Met + Partial + Missing) for instantiating
the scorer theorems: total 7, max 15, percentage round(46.67) = 47. -/
def witnessList3 : List EvaluatedCriterion :=
  [{ criterionId := "W1", criterionText := "", category := "", status := "Met",
     evidenceFound := "", suggestedLanguage := "", scoreContribution := 5 },
   { criterionId := "W2", criterionText := "", category := "", status := "Partial",
     evidenceFound := "", suggestedLanguage := "", scoreContribution := 2 },
   { criterionId := "W3", criterionText := "", category := "", status := "Missing",
     evidenceFound := "", suggestedLanguage := "", scoreContribution := 0 }]

/-- Scenario D's criterion: the keyword list `["hypoxemia", "spo2"]`. -/
def scenarioDCriterion : Criterion :=
  { id := "SCEN-D"
    text := "Hypoxemia (SpO2 < 90%) or need for supplemental oxygen"
    category := "Respiratory"
    keywords := ["hypoxemia", "spo2"] }

def scenarioCNote : String := "Patient started on vancomycin for bilateral pneumonia."

/-- A keyword-less Respiratory-category criterion (the category rule chain
only runs when the keyword list is empty). -/
def respiratoryCategoryCriterion : Criterion :=
  { id := "RESP-CAT", text := "Respiratory compromise requiring inpatient care",
    category := "Respiratory", keywords := [] }

/-- A keyword-less Escalation-category criterion. -/
def escalationCategoryCriterion : Criterion :=
  { id := "ESC-CAT", text := "Escalation to IV therapy",
    category := "Escalation", keywords := [] }

/-! ## Helper lemmas -/

/-- The status/score pairing enforced by the evaluator's fixed table. -/
def StatusScore (st : String) (sc : Int) : Prop :=
  (st = "Met" ∧ sc = 5) ∨ (st = "Partial" ∧ sc = 2) ∨ (st = "Missing" ∧ sc = 0)

instance (st : String) (sc : Int) : Decidable (StatusScore st sc) := by
  unfold StatusScore
  infer_instance

/-- Every value of the association-list dict satisfies `P`. -/
def DictAll {α : Type} (P : α → Prop) (d : List (String × α)) : Prop :=
  ∀ kv ∈ d, P kv.2

/-- Shorthand: an evaluated-criterion entry whose status and score obey the
fixed table. -/
def entryOk (e : EvaluatedCriterion) : Prop :=
  StatusScore e.status e.scoreContribution

theorem normalizeStatus_cases (s : String) :
    normalizeStatus s = "Met" ∨ normalizeStatus s = "Partial" ∨
    normalizeStatus s = "Missing" := by
  dsimp only [normalizeStatus]
  split
  · exact Or.inl rfl
  · split
    · exact Or.inr (Or.inl rfl)
    · exact Or.inr (Or.inr rfl)

theorem statusScore_evalCriterion (env : EvalEnv) (c : Criterion) :
    StatusScore (evalCriterion env c).status (evalCriterion env c).scoreContribution := by
  have h := normalizeStatus_cases (rawEval env (lowerStr (stripStr (pyOr c.category "")))
    (lowerStr (stripStr (pyOr c.text ""))) c.keywords).1
  simp only [evalCriterion, StatusScore]
  rcases h with h | h | h <;> rw [h] <;> simp [scoreOf]

theorem statusScore_toPlainDict (e : EvaluatedCriterion)
    (h : StatusScore e.status e.scoreContribution) :
    StatusScore (toPlainDict e).status (toPlainDict e).scoreContribution := by
  simp only [toPlainDict]
  rcases h with ⟨h1, h2⟩ | ⟨h1, h2⟩ | ⟨h1, h2⟩ <;> rw [h1, h2] <;> simp [StatusScore, pyOr]

theorem mem_dictInsert {α : Type} {kv : String × α} {k : String} {v : α}
    {d : List (String × α)} (h : kv ∈ dictInsert k v d) : kv = (k, v) ∨ kv ∈ d := by
  induction d with
  | nil => simpa [dictInsert] using h
  | cons hd tl ih =>
    simp only [dictInsert] at h
    by_cases hk : hd.1 = k
    · simp only [hk, if_pos rfl] at h
      rcases List.mem_cons.mp h with h | h
      · exact Or.inl h
      · exact Or.inr (List.mem_cons_of_mem _ h)
    · rw [if_neg hk] at h
      rcases List.mem_cons.mp h with h | h
      · exact Or.inr (h ▸ List.mem_cons_self _ _)
      · rcases ih h with h | h
        · exact Or.inl h
        · exact Or.inr (List.mem_cons_of_mem _ h)

theorem dictLookup_insert {α : Type} (k k' : String) (v : α) (d : List (String × α)) :
    dictLookup (dictInsert k v d) k' = if k' = k then some v else dictLookup d k' := by
  induction d with
  | nil =>
    by_cases h : k' = k
    · simp [dictInsert, dictLookup, List.find?, h]
    · have hkk : (k = k') = False := by simp [Ne.symm h]
      simp [dictInsert, dictLookup, List.find?, h, hkk]
  | cons hd tl ih =>
    simp only [dictInsert]
    by_cases hk : hd.1 = k
    · by_cases h : k' = k
      · simp [dictLookup, List.find?, hk, h]
      · simp only [if_pos hk]
        simp only [dictLookup, List.find?] at ih ⊢
        have hne : (k = k') = False := by simp [Ne.symm h]
        simp [h, hne, hk]
    · rw [if_neg hk]
      by_cases h : k' = hd.1
      · simp [dictLookup, List.find?, h, hk, Ne.symm, (h ▸ hk : k' ≠ k)]
      · simp only [dictLookup, List.find?] at ih ⊢
        have : (hd.1 = k') = False := by simp [Ne.symm h]
        simp only [this, cond_false]
        exact ih


theorem dictAll_insert {α : Type} {P : α → Prop} {k : String} {v : α}
    {d : List (String × α)} (hv : P v) (hd : DictAll P d) :
    DictAll P (dictInsert k v d) := by
  intro kv hkv
  rcases mem_dictInsert hkv with h | h
  · rw [h]; exact hv
  · exact hd kv h

theorem dictAll_lookup {α : Type} {d : List (String × α)}
    {k : String} {v : α} (P : α → Prop) (hd : DictAll P d)
    (h : dictLookup d k = some v) : P v := by
  simp only [dictLookup, Option.map_eq_some'] at h
  obtain ⟨kv, hfind, hv⟩ := h
  exact hv ▸ hd kv (List.mem_of_find?_eq_some hfind)


theorem statusScore_pyOrMissing {s : String} {sc : Int} (h : StatusScore s sc) :
    StatusScore (pyOr s "Missing") sc := by
  rcases h with ⟨h1, h2⟩ | ⟨h1, h2⟩ | ⟨h1, h2⟩ <;> rw [h1, h2] <;> decide

theorem statusScore_renormForFilter {s : String} {sc : Int} (h : StatusScore s sc) :
    StatusScore (renormForFilter s) sc := by
  rcases h with ⟨h1, h2⟩ | ⟨h1, h2⟩ | ⟨h1, h2⟩ <;> rw [h1, h2] <;> decide

/-- Invariant propagation through a `foldl` that builds a dict. -/
theorem foldl_dictAll {α β : Type} {P : α → Prop} {Q : β → Prop}
    (step : List (String × α) → β → List (String × α))
    (hstep : ∀ acc x, DictAll P acc → Q x → DictAll P (step acc x)) :
    ∀ (l : List β) (acc), (∀ x ∈ l, Q x) → DictAll P acc →
      DictAll P (l.foldl step acc)
  | [], _, _, hacc => hacc
  | x :: tl, acc, hl, hacc => by
    simp only [List.foldl_cons]
    exact foldl_dictAll step hstep tl (step acc x)
      (fun y hy => hl y (List.mem_cons_of_mem _ hy))
      (hstep acc x hacc (hl x (List.mem_cons_self _ _)))

theorem dictAll_nil {α : Type} {P : α → Prop} : DictAll P ([] : List (String × α)) := by
  intro kv hkv
  exact absurd hkv (List.not_mem_nil _)

theorem dictAll_buildById {P : EvaluatedCriterion → Prop}
    (eds : List EvaluatedCriterion) (h : ∀ ed ∈ eds, P ed) :
    DictAll P (buildById eds) := by
  unfold buildById
  refine foldl_dictAll _ ?_ eds [] h dictAll_nil
  intro acc x hacc hx
  by_cases hid : x.criterionId ≠ ""
  · rw [if_pos hid]; exact dictAll_insert hx hacc
  · rw [if_neg hid]; exact hacc

theorem dictAll_buildByText {P : EvaluatedCriterion → Prop}
    (eds : List EvaluatedCriterion) (h : ∀ ed ∈ eds, P ed) :
    DictAll P (buildByText eds) := by
  unfold buildByText
  refine foldl_dictAll _ ?_ eds [] h dictAll_nil
  intro acc x hacc hx
  dsimp only
  by_cases hct : pyOr x.criterionText "" ≠ ""
  · rw [if_pos hct]; exact dictAll_insert hx hacc
  · rw [if_neg hct]; exact hacc

theorem textstartLoop_prop {P : EvaluatedCriterion → Prop}
    {bT : List (String × EvaluatedCriterion)} {f : EvaluatedCriterion}
    (hT : DictAll P bT) (h : textstartLoop bT = some f) : P f := by
  simp only [textstartLoop, Option.map_eq_some'] at h
  obtain ⟨kv, hfind, hv⟩ := h
  exact hv ▸ hT kv (List.mem_of_find?_eq_some hfind)

/-- Both branches of `matchStep` insert an entry under the canonical id. -/
theorem matchStep_eq_insert (bI bT acc : List (String × EvaluatedCriterion))
    (c : CritJson) : ∃ e, matchStep bI bT acc c = dictInsert c.id e acc := by
  dsimp only [matchStep]
  split
  · exact ⟨_, rfl⟩
  · exact ⟨_, rfl⟩

/-- The entry `matchStep` inserts obeys the status/score table when the
evaluated entries feeding `by_id` / `by_textstart` do. -/
theorem matchStep_entryOk {bI bT acc : List (String × EvaluatedCriterion)}
    {c : CritJson} (hI : DictAll entryOk bI) (hT : DictAll entryOk bT)
    (hacc : DictAll entryOk acc) : DictAll entryOk (matchStep bI bT acc c) := by
  have hfound : ∀ f : EvaluatedCriterion,
      (match dictLookup bI c.id with
       | some ed => if c.id ≠ "" then some ed else
          (match dictLookup bT (pyTake 40 (pyOr c.text "")) with
           | some v => some v
           | none => textstartLoop bT)
       | none =>
          (match dictLookup bT (pyTake 40 (pyOr c.text "")) with
           | some v => some v
           | none => textstartLoop bT)) = some f → entryOk f := by
    intro f hf
    rcases hbi : dictLookup bI c.id with _ | ed
    · simp only [hbi] at hf
      rcases hbt : dictLookup bT (pyTake 40 (pyOr c.text "")) with _ | v
      · simp only [hbt] at hf
        exact textstartLoop_prop hT hf
      · simp only [hbt] at hf
        exact (Option.some_inj.mp hf) ▸ dictAll_lookup entryOk hT hbt
    · simp only [hbi] at hf
      by_cases hid : c.id ≠ ""
      · rw [if_pos hid] at hf
        exact (Option.some_inj.mp hf) ▸ dictAll_lookup entryOk hI hbi
      · rw [if_neg hid] at hf
        rcases hbt : dictLookup bT (pyTake 40 (pyOr c.text "")) with _ | v
        · simp only [hbt] at hf
          exact textstartLoop_prop hT hf
        · simp only [hbt] at hf
          exact (Option.some_inj.mp hf) ▸ dictAll_lookup entryOk hT hbt
  dsimp only [matchStep]
  split
  · next f hf =>
    refine dictAll_insert ?_ hacc
    have hok := hfound f hf
    show StatusScore (pyOr f.status "Missing") f.scoreContribution
    exact statusScore_pyOrMissing hok
  · next hf =>
    exact dictAll_insert (Or.inr (Or.inr ⟨rfl, rfl⟩)) hacc

/-- All values of `eval_map` obey the status/score table when all evaluated
dicts do. -/
theorem matchEv_entryOk {eds : List EvaluatedCriterion}
    (canonical : List CritJson) (h : ∀ ed ∈ eds, entryOk ed) :
    DictAll entryOk (matchEvaluatedToCriteria eds canonical) := by
  unfold matchEvaluatedToCriteria
  refine foldl_dictAll _ ?_ canonical [] (fun _ _ => trivial) dictAll_nil
  intro acc c hacc _
  exact matchStep_entryOk (dictAll_buildById eds h) (dictAll_buildByText eds h) hacc

/-- Source `dictInsert` keeps every present key present. -/
theorem dictLookup_isSome_insert {α : Type} {d : List (String × α)} {k k' : String}
    {v : α} (h : (dictLookup d k').isSome) :
    (dictLookup (dictInsert k v d) k').isSome := by
  rw [dictLookup_insert]
  by_cases hk : k' = k
  · rw [if_pos hk]; rfl
  · rw [if_neg hk]; exact h

theorem foldl_matchStep_isSome (bI bT : List (String × EvaluatedCriterion)) :
    ∀ (l : List CritJson) (acc) (c : CritJson),
      c ∈ l ∨ (dictLookup acc c.id).isSome →
      (dictLookup (l.foldl (matchStep bI bT) acc) c.id).isSome
  | [], acc, c, h => by
    rcases h with h | h
    · exact absurd h (List.not_mem_nil _)
    · exact h
  | x :: tl, acc, c, h => by
    simp only [List.foldl_cons]
    obtain ⟨e, he⟩ := matchStep_eq_insert bI bT acc x
    rcases h with h | h
    · rcases List.mem_cons.mp h with h | h
      · refine foldl_matchStep_isSome bI bT tl _ c (Or.inr ?_)
        rw [he, h, dictLookup_insert, if_pos rfl]
        rfl
      · exact foldl_matchStep_isSome bI bT tl _ c (Or.inl h)
    · refine foldl_matchStep_isSome bI bT tl _ c (Or.inr ?_)
      rw [he]
      exact dictLookup_isSome_insert h

/-- Every canonical criterion's id is a key of `eval_map`. -/
theorem matchEv_lookup_isSome (eds : List EvaluatedCriterion)
    (canonical : List CritJson) (c : CritJson) (hc : c ∈ canonical) :
    (dictLookup (matchEvaluatedToCriteria eds canonical) c.id).isSome :=
  foldl_matchStep_isSome _ _ canonical [] c (Or.inl hc)

theorem evaluate_criteria_ok {cs : List Criterion} {cd : ClinicalData}
    {l : List EvaluatedCriterion} (h : evaluate_criteria cs cd = .ok l) :
    ∃ ls, resolveLowestSpo2 cd = .ok ls ∧ l = cs.map (evalCriterion (mkEnv cd ls)) := by
  unfold evaluate_criteria at h
  rcases hr : resolveLowestSpo2 cd with e | ls
  · rw [hr] at h
    cases h
  · rw [hr] at h
    injection h with h
    exact ⟨ls, rfl, h.symm⟩

theorem evaluatedDictsOf_entryOk (notes : String) :
    ∀ e ∈ evaluatedDictsOf notes, entryOk e := by
  intro e he
  unfold evaluatedDictsOf at he
  rcases hev : evaluate_criteria mcgObjs (extract_clinical_data notes) with err | l
  · rw [hev] at he
    simp [okList] at he
  · rw [hev] at he
    simp only [okList] at he
    obtain ⟨ls, _, hl⟩ := evaluate_criteria_ok hev
    subst hl
    simp only [List.map_map, List.mem_map] at he
    obtain ⟨c, _, rfl⟩ := he
    exact statusScore_toPlainDict _ (statusScore_evalCriterion _ _)

theorem evalMapOf_entryOk (notes : String) : DictAll entryOk (evalMapOf notes) :=
  matchEv_entryOk criteriaJson (evaluatedDictsOf_entryOk notes)

theorem alignedOf_entryOk (notes : String) : ∀ e ∈ alignedOf notes, entryOk e := by
  intro e he
  unfold alignedOf at he
  simp only [List.mem_map] at he
  obtain ⟨c, _, rfl⟩ := he
  rcases hl : dictLookup (evalMapOf notes) c.id with _ | v
  · exact Or.inr (Or.inr ⟨rfl, rfl⟩)
  · exact dictAll_lookup entryOk (evalMapOf_entryOk notes) hl

theorem mkMissingEntry_ok {em : List (String × EvaluatedCriterion)}
    (h : DictAll entryOk em) (c : CritJson) :
    StatusScore (mkMissingEntry em c).status (mkMissingEntry em c).scoreContribution := by
  unfold mkMissingEntry
  dsimp only
  rcases hl : dictLookup em c.id with _ | v
  · exact statusScore_renormForFilter (Or.inr (Or.inr ⟨rfl, rfl⟩))
  · have hv : entryOk v := dictAll_lookup entryOk h hl
    exact statusScore_renormForFilter hv

/-- With no evaluated entries at all, every value reconciliation stores is
the Missing/0 default. -/
theorem matchEv_nil_missing (canonical : List CritJson) :
    DictAll (fun e => e.status = "Missing" ∧ e.scoreContribution = 0)
      (matchEvaluatedToCriteria [] canonical) := by
  unfold matchEvaluatedToCriteria
  refine foldl_dictAll _ ?_ canonical [] (fun _ _ => trivial) dictAll_nil
  intro acc c hacc _
  have h1 : dictLookup (buildById []) c.id = none := rfl
  have h2 : dictLookup (buildByText []) (pyTake 40 (pyOr c.text "")) = none := rfl
  have h3 : textstartLoop (buildByText []) = none := rfl
  simp only [matchStep, h1, h2, h3]
  exact dictAll_insert ⟨rfl, rfl⟩ hacc

theorem ratFloor_eq (q : ℚ) : Rat.floor q = ⌊q⌋ := by
  rw [Rat.floor_def', Rat.floor_def]

theorem pyRound_cases (q : ℚ) : pyRound q = ⌊q⌋ ∨ pyRound q = ⌊q⌋ + 1 := by
  unfold pyRound
  dsimp only
  rw [ratFloor_eq]
  split
  · exact Or.inl rfl
  · split
    · exact Or.inr rfl
    · split
      · exact Or.inl rfl
      · exact Or.inr rfl

theorem pyRound_nonneg {q : ℚ} (h : 0 ≤ q) : 0 ≤ pyRound q := by
  have hf : 0 ≤ ⌊q⌋ := Int.floor_nonneg.mpr h
  rcases pyRound_cases q with h1 | h1 <;> rw [h1] <;> omega

theorem pyRound_le_100 {q : ℚ} (h : q ≤ 100) : pyRound q ≤ 100 := by
  rcases eq_or_lt_of_le h with heq | hlt
  · rw [heq]
    decide
  · have hf : ⌊q⌋ < 100 := Int.floor_lt.mpr (by exact_mod_cast hlt)
    rcases pyRound_cases q with h1 | h1 <;> rw [h1] <;> omega

theorem sum_scores_bounds :
    ∀ l : List EvaluatedCriterion,
      (∀ e ∈ l, e.scoreContribution = 0 ∨ e.scoreContribution = 2 ∨ e.scoreContribution = 5) →
      0 ≤ (l.map (·.scoreContribution)).sum ∧
        (l.map (·.scoreContribution)).sum ≤ (l.length : Int) * 5
  | [], _ => by simp
  | e :: tl, h => by
    have htl := sum_scores_bounds tl fun x hx => h x (List.mem_cons_of_mem _ hx)
    have he := h e (List.mem_cons_self _ _)
    simp only [List.map_cons, List.sum_cons, List.length_cons]
    push_cast
    rcases he with he | he | he <;> rw [he] <;> constructor <;> omega

/-- Claim C2: `admissionRecommended` is an existence check for a
criterion with status exactly `"Met"` — both for
`compute_admission_decision` on any reconciled list and for the
pipeline's output flag — independent of the percentage score. -/
theorem admission_iff_exists_met (l : List EvaluatedCriterion) (notes pdf : String) :
    ((compute_admission_decision l).admissionRecommended = true ↔
      ∃ e ∈ l, e.status = "Met") ∧
    ((run_alignment_engine notes pdf).admissionRecommended = true ↔
      ∃ e ∈ alignedOf notes, e.status = "Met") := by
  constructor
  · simp [compute_admission_decision, List.any_eq_true]
  · simp [run_alignment_engine, decisionOf, compute_admission_decision, List.any_eq_true]

/-- Claim C3: `totalScore` is the sum of score contributions,
`maxPossibleScore` is `5 × count`, the percentage is
`round(total/max*100)` for a non-empty list and `0` for an empty one, and
for table-valued scores (hence for the pipeline's overall score) the
percentage lies in `[0, 100]`. -/
theorem admission_score_formula (l : List EvaluatedCriterion) :
    (compute_admission_decision l).totalScore = (l.map (·.scoreContribution)).sum ∧
    (compute_admission_decision l).maxPossibleScore = (l.length : Int) * 5 ∧
    (l ≠ [] → (compute_admission_decision l).percentage =
      pyRound ((((l.map (·.scoreContribution)).sum : ℤ) : ℚ) /
        (((l.length : Int) * 5 : Int) : ℚ) * 100)) ∧
    (l = [] → (compute_admission_decision l).percentage = 0) ∧
    ((∀ e ∈ l, e.scoreContribution = 0 ∨ e.scoreContribution = 2 ∨ e.scoreContribution = 5) →
      0 ≤ (compute_admission_decision l).percentage ∧
        (compute_admission_decision l).percentage ≤ 100) ∧
    (∀ notes pdf : String, 0 ≤ (run_alignment_engine notes pdf).overallScore ∧
      (run_alignment_engine notes pdf).overallScore ≤ 100) := by
  have hdiv : ∀ t m : ℤ, m ≠ 0 → Rat.divInt (t * 100) m = (t : ℚ) / (m : ℚ) * 100 := by
    intro t m hm
    rw [Rat.divInt_eq_div]
    push_cast
    field_simp
  have hpos : ∀ ll : List EvaluatedCriterion, ll ≠ [] → (0 : ℤ) < (ll.length : Int) * 5 := by
    intro ll hll
    have : 0 < ll.length := List.length_pos.mpr hll
    omega
  have hbounds : ∀ ll : List EvaluatedCriterion,
      (∀ e ∈ ll, e.scoreContribution = 0 ∨ e.scoreContribution = 2 ∨ e.scoreContribution = 5) →
      0 ≤ (compute_admission_decision ll).percentage ∧
        (compute_admission_decision ll).percentage ≤ 100 := by
    intro ll hs
    obtain ⟨hs0, hs5⟩ := sum_scores_bounds ll hs
    have hper : (compute_admission_decision ll).percentage =
        (if 0 < (ll.length : Int) * 5 then
          pyRound (Rat.divInt ((ll.map (·.scoreContribution)).sum * 100)
            ((ll.length : Int) * 5)) else 0) := rfl
    rw [hper]
    rcases Nat.eq_zero_or_pos ll.length with hlen | hlen
    · have hz : ¬ (0 : ℤ) < (ll.length : Int) * 5 := by omega
      rw [if_neg hz]
      exact ⟨le_refl 0, by omega⟩
    · have hz : (0 : ℤ) < (ll.length : Int) * 5 := by omega
      rw [if_pos hz]
      set t := (ll.map (·.scoreContribution)).sum with ht
      set m := ((ll.length : Int) * 5 : ℤ) with hm
      have hq : Rat.divInt (t * 100) m = (t : ℚ) / (m : ℚ) * 100 := hdiv t m (by omega)
      have hmq : (0 : ℚ) < (m : ℚ) := by exact_mod_cast hz
      constructor
      · rw [hq]
        refine pyRound_nonneg ?_
        have h0 : (0 : ℚ) ≤ (t : ℚ) := by exact_mod_cast hs0
        positivity
      · rw [hq]
        refine pyRound_le_100 ?_
        have h5 : (t : ℚ) ≤ (m : ℚ) := by exact_mod_cast hs5
        rw [div_mul_eq_mul_div, div_le_iff₀ hmq]
        nlinarith
  refine ⟨rfl, rfl, ?_, ?_, hbounds l, ?_⟩
  · intro hl
    show (if 0 < (l.length : Int) * 5 then
        pyRound (Rat.divInt ((l.map (·.scoreContribution)).sum * 100) ((l.length : Int) * 5)) else 0) = _
    rw [if_pos (hpos l hl), hdiv _ _ (by have := hpos l hl; omega)]
  · intro hl
    subst hl
    rfl
  · intro notes pdf
    show 0 ≤ (decisionOf notes).percentage ∧ (decisionOf notes).percentage ≤ 100
    exact hbounds (alignedOf notes) fun e he => by
      rcases alignedOf_entryOk notes e he with ⟨_, h2⟩ | ⟨_, h2⟩ | ⟨_, h2⟩ <;> omega


theorem admission_score_formula_witness :
    0 ≤ (compute_admission_decision witnessList3).percentage ∧
    (compute_admission_decision witnessList3).percentage ≤ 100 ∧
    (compute_admission_decision witnessList3).percentage = 47 := by
  have h := (admission_score_formula witnessList3).2.2.2.2.1 (by decide)
  exact ⟨h.1, h.2, by decide⟩

/-- Claim C1: for every input, the pipeline result has exactly one
evaluated-criterion record per canonical criterion (equal length, ids
matching the canonical ids in the canonical configured order), and when
the matcher produced no entries at all, reconciliation stores a
Missing/scoreContribution=0 default for every canonical criterion. -/
theorem pipeline_one_entry_per_criterion (notes pdf : String) :
    (run_alignment_engine notes pdf).missingCriteria.length = MCG_CRITERIA.length ∧
    (run_alignment_engine notes pdf).missingCriteria.map (·.criterionId) =
      MCG_CRITERIA.map (·.id) ∧
    ∀ (canonical : List CritJson) (c : CritJson), c ∈ canonical →
      ∃ d, dictLookup (matchEvaluatedToCriteria [] canonical) c.id = some d ∧
        d.status = "Missing" ∧ d.scoreContribution = 0 := by
  refine ⟨rfl, rfl, ?_⟩
  intro canonical c hc
  have hsome := matchEv_lookup_isSome [] canonical c hc
  obtain ⟨d, hd⟩ := Option.isSome_iff_exists.mp hsome
  have hmiss : d.status = "Missing" ∧ d.scoreContribution = 0 :=
    dictAll_lookup (fun e => e.status = "Missing" ∧ e.scoreContribution = 0)
      (matchEv_nil_missing canonical) hd
  exact ⟨d, hd, hmiss⟩

theorem pipeline_one_entry_per_criterion_witness :
    ∃ d, dictLookup (matchEvaluatedToCriteria []
        [⟨"CW1", "Sample criterion text", "Other"⟩]) "CW1" = some d ∧
      d.status = "Missing" ∧ d.scoreContribution = 0 :=
  (pipeline_one_entry_per_criterion "" "").2.2
    [⟨"CW1", "Sample criterion text", "Other"⟩]
    ⟨"CW1", "Sample criterion text", "Other"⟩ (by decide)

/-- Claim C4: every evaluated criterion in the pipeline output has status
in the three-value enum with the fixed score table Met→5, Partial→2,
Missing→0 (`StatusScore` is precisely that table, so it also bounds
`scoreContribution` to {0,2,5}). -/
theorem pipeline_status_score_table (notes pdf : String) :
    ∀ e ∈ (run_alignment_engine notes pdf).missingCriteria,
      StatusScore e.status e.scoreContribution := by
  intro e he
  have he' : e ∈ missingOf notes := he
  unfold missingOf at he'
  simp only [List.mem_map] at he'
  obtain ⟨c, _, rfl⟩ := he'
  exact mkMissingEntry_ok (evalMapOf_entryOk notes) c

theorem pipeline_status_score_table_witness :
    ∃ e ∈ (run_alignment_engine "" "").missingCriteria,
      StatusScore e.status e.scoreContribution := by
  refine ⟨⟨"MCG-R1", "Hypoxemia (SpO2 < 90%) or need for supplemental oxygen",
    "Hypoxemia (SpO2 < 90%) or need for supplemental oxygen", "Missing", 0⟩,
    by decide, pipeline_status_score_table "" "" _ (by decide)⟩

/-- Claim C6: the empty note yields a fully-formed result — one record per
canonical criterion, all Missing, total score 0, percentage 0, and no
admission recommendation (the evaluator's internal `IndexError` on the
empty SpO2 list is caught at the coordinator, which falls back to an empty
evaluated list and reconciles it to all-Missing defaults). -/
theorem empty_note_defaults :
    (run_alignment_engine "" "").missingCriteria.length = MCG_CRITERIA.length ∧
    ((run_alignment_engine "" "").missingCriteria.all fun e =>
      e.status = "Missing" ∧ e.scoreContribution = 0) = true ∧
    (run_alignment_engine "" "").decision.totalScore = 0 ∧
    (run_alignment_engine "" "").overallScore = 0 ∧
    (run_alignment_engine "" "").admissionRecommended = false := by
  decide

/-- Claim C9: the pipeline is deterministic — the embedding is a pure
total function of the note text, the guideline text and the read-only
`MCG_CRITERIA` table (the source pipeline holds no other cross-request
state), so two runs on identical input produce identical structured
output. -/
theorem pipeline_deterministic (notes pdf : String) :
    run_alignment_engine notes pdf = run_alignment_engine notes pdf := rfl


/-- Claim C5 is false on the code: for the note `"spo2 88%"` the extractor
derives `hypoxemia = true` (88 < 90), `_build_search_text` injects the flag
name `"hypoxemia"` into the search corpus, so BOTH keywords match and the
status is Met, not Partial as the claim states. -/
theorem scenarioD_counterexample :
    pipelineStatuses (evaluate_criteria [scenarioDCriterion]
      (extract_clinical_data "spo2 88%")) = ["Met"] ∧
    matchKeywords scenarioDCriterion.keywords
      (mkSearchText (extract_clinical_data "spo2 88%")) = ["hypoxemia", "spo2"] ∧
    pipelineStatuses (evaluate_criteria [scenarioDCriterion]
      (extract_clinical_data "spo2 88%")) ≠ ["Partial"] := by
  decide

/-- Claim C5 (amended): against the note `"spo2 88%"` both keywords of
`["hypoxemia", "spo2"]` match (spo2 in the note text, hypoxemia via the
derived flag's name in the search corpus), so the status is Met; and in
general a keyworded criterion's status is Met iff at least 2 distinct
keywords matched, Partial iff exactly 1, Missing iff none. -/
theorem keyword_match_thresholds :
    (pipelineStatuses (evaluate_criteria [scenarioDCriterion]
      (extract_clinical_data "spo2 88%")) = ["Met"]) ∧
    (∀ (env : EvalEnv) (c : Criterion), c.keywords ≠ [] →
      (evalCriterion env c).status =
        (if 2 ≤ distinctLowerCount (matchKeywords c.keywords env.searchText) then "Met"
         else if 1 ≤ distinctLowerCount (matchKeywords c.keywords env.searchText) then "Partial"
         else "Missing")) := by
  refine ⟨by decide, ?_⟩
  intro env c hk
  have hstat : (evalCriterion env c).status =
      normalizeStatus (rawEval env (lowerStr (stripStr (pyOr c.category "")))
        (lowerStr (stripStr (pyOr c.text ""))) c.keywords).1 := rfl
  rw [hstat]
  unfold rawEval
  rw [if_pos hk]
  set m := matchKeywords c.keywords env.searchText with hm
  by_cases hne : m ≠ []
  · rw [if_pos hne]
    by_cases h2 : 2 ≤ distinctLowerCount m
    · rw [if_pos h2, if_pos h2]
      exact (by decide : normalizeStatus "Met" = "Met")
    · have h1 : 1 ≤ distinctLowerCount m := by
        have hmap : m.map lowerStr ≠ [] := by
          simpa [List.map_eq_nil_iff] using hne
        have hded : (m.map lowerStr).dedup ≠ [] := by
          simpa [List.dedup_eq_nil] using hmap
        have := List.length_pos.mpr hded
        unfold distinctLowerCount
        omega
      rw [if_neg h2, if_neg h2, if_pos h1]
      exact (by decide : normalizeStatus "Partial" = "Partial")
  · rw [not_ne_iff] at hne
    rw [hne]
    simp only [distinctLowerCount, List.map_nil, List.dedup_nil, List.length_nil]
    decide

theorem keyword_match_thresholds_witness :
    (evalCriterion (mkEnv (extract_clinical_data "spo2 88%") (some 88))
      scenarioDCriterion).status = "Met" := by
  have h := keyword_match_thresholds.2
    (mkEnv (extract_clinical_data "spo2 88%") (some 88)) scenarioDCriterion (by decide)
  rw [h]
  decide


/-- Claim C7 (code bug): feature extraction behaves exactly as claimed
(iv_antibiotics, bilateral_pneumonia, no hypoxemia), but because the note
has no percent token, `spo2_values` is empty and the evaluator's
lowest-SpO2 fallback `spo2_values[0]` raises IndexError before any
criterion is evaluated; the pipeline therefore reports every criterion
Missing instead of the claimed Partial/Met.  The last conjunct shows the
claimed Partial (bilateral-pneumonia branch) / Met (escalation branch)
statuses do arise on the same features once the SpO2 list is non-empty,
i.e. the claim describes the evident intent of the rule chain. -/
theorem scenarioC_extraction_and_bug :
    (extract_clinical_data scenarioCNote).iv_antibiotics = true ∧
    (extract_clinical_data scenarioCNote).bilateral_pneumonia = true ∧
    (extract_clinical_data scenarioCNote).hypoxemia = false ∧
    evaluate_criteria [respiratoryCategoryCriterion, escalationCategoryCriterion]
      (extract_clinical_data scenarioCNote) =
      .error "IndexError: list index out of range" ∧
    ((run_alignment_engine scenarioCNote "").missingCriteria.all fun e =>
      e.status = "Missing") = true ∧
    pipelineStatuses (evaluate_criteria
      [respiratoryCategoryCriterion, escalationCategoryCriterion]
      { extract_clinical_data scenarioCNote with
        spo2_values := [95], lowest_spo2 := some 95 }) = ["Partial", "Met"] := by
  refine ⟨by decide, by decide, by decide, ?_, by decide, by decide⟩
  rfl

/-- Claim C8: symptom duration comes from the two sequential patterns
`x N week` (N×7 days) and `x N day` (N days), and the day pattern, being
evaluated second, overwrites the week result whenever both match. -/
theorem duration_day_overwrites_week (s : String) :
    (∀ w d : Nat,
      scanFirst (xNumUnitAt "week".data) none (lowerStr (normalizeText s)).data = some w →
      scanFirst (xNumUnitAt "day".data) none (lowerStr (normalizeText s)).data = some d →
      (extract_clinical_data s).symptom_duration_days = some (d : Int)) ∧
    (∀ w : Nat,
      scanFirst (xNumUnitAt "day".data) none (lowerStr (normalizeText s)).data = none →
      scanFirst (xNumUnitAt "week".data) none (lowerStr (normalizeText s)).data = some w →
      (extract_clinical_data s).symptom_duration_days = some ((w : Int) * 7)) ∧
    (∀ d : Nat,
      scanFirst (xNumUnitAt "day".data) none (lowerStr (normalizeText s)).data = some d →
      (extract_clinical_data s).symptom_duration_days = some (d : Int)) := by
  have hdur : (extract_clinical_data s).symptom_duration_days =
      (match scanFirst (xNumUnitAt "day".data) none (lowerStr (normalizeText s)).data with
       | some n => some (n : Int)
       | none => (scanFirst (xNumUnitAt "week".data) none
           (lowerStr (normalizeText s)).data).map fun n => (n : Int) * 7) := rfl
  refine ⟨?_, ?_, ?_⟩
  · intro w d _ hd
    rw [hdur, hd]
  · intro w hd hw
    rw [hdur, hd, hw]
    rfl
  · intro d hd
    rw [hdur, hd]

theorem duration_day_overwrites_week_witness :
    (extract_clinical_data "cough x 2 week, worse x 3 day").symptom_duration_days =
      some 3 ∧
    (extract_clinical_data "cough x 2 week").symptom_duration_days = some 14 := by
  constructor
  · exact (duration_day_overwrites_week "cough x 2 week, worse x 3 day").1 2 3
      (by rfl) (by rfl)
  · exact (duration_day_overwrites_week "cough x 2 week").2.1 2 (by rfl) (by rfl)

/-- Claim C10 (code bug): whenever `evaluate_criteria` returns a list it
has exactly one record per input criterion, in input order (so never zero
or duplicate records per criterion); but on a clinical-data record whose
`lowest_spo2` is falsy while `spo2_values` is present and empty — e.g. the
extracted features of any note without a percent token — the setup line
`lowest_spo2 or spo2_values[0]` raises IndexError and the function returns
nothing at all, so the claim's "for every clinical-data record" fails.
(The per-criterion `except` fallback the claim describes sits inside the
loop and is unreachable from this raise, which happens before the loop.) -/
theorem evaluator_one_record_per_criterion :
    (∀ (cs : List Criterion) (cd : ClinicalData) (l : List EvaluatedCriterion),
      evaluate_criteria cs cd = .ok l →
      l.length = cs.length ∧ l.map (·.criterionId) = cs.map (·.id)) ∧
    evaluate_criteria mcgObjs (extract_clinical_data "") =
      .error "IndexError: list index out of range" := by
  constructor
  · intro cs cd l h
    obtain ⟨ls, _, hl⟩ := evaluate_criteria_ok h
    subst hl
    constructor
    · simp
    · simp only [List.map_map]
      rfl
  · rfl

theorem evaluator_one_record_per_criterion_witness :
    (okList (evaluate_criteria [scenarioDCriterion]
      (extract_clinical_data "spo2 88%"))).length = 1 ∧
    (okList (evaluate_criteria [scenarioDCriterion]
      (extract_clinical_data "spo2 88%"))).map (·.criterionId) = ["SCEN-D"] := by
  have h := evaluator_one_record_per_criterion.1 [scenarioDCriterion]
    (extract_clinical_data "spo2 88%")
    (okList (evaluate_criteria [scenarioDCriterion] (extract_clinical_data "spo2 88%")))
    (by rfl)
  exact h

end ClinicalNLP
